import Mathlib

/-!
# Confirmation-prompt command handlers: `BanPlayer` and `RestartServer`

A shallow embedding of `interactions/commands/ban-player.go` and
`interactions/commands/restart-server.go`.

* Go `string` is `String`; `int` and `int64` are `Int` (`int64` results are
  wrapped explicitly where the source can overflow).
* The two Go standard-library functions the parsers rely on, `strings.Split`
  / `strings.Join` and `strconv.ParseInt`, are embedded from their library
  source for the arguments the handlers pass (`sep = " "`, `base = 10`,
  `bitSize = 64`).
* A handler run is a pure function of the outcomes of its external calls. It
  yields the `return` statement it left through, the ordered trace of external
  calls it made and the final contents of `MessagesAwaitingReaction`.
-/

/-! ## Go standard library -/

namespace strings

/-- Pieces of a character sequence between single spaces, empty pieces kept. -/
def splitChars : List Char → List (List Char)
  | [] => [[]]
  | c :: cs =>
    if c = ' ' then [] :: splitChars cs
    else
      match splitChars cs with
      | [] => [[c]]
      | t :: ts => (c :: t) :: ts

/-- Embedding of `strings.Split(s, " ")`: every substring between two
occurrences of the separator, in order; `n+1` pieces for `n` separators, so the
empty string gives one empty piece. -/
def Split (s : String) : List String :=
  (splitChars s.data).map String.mk

/-- Embedding of `strings.Join(elems, sep)`. -/
def Join : List String → String → String
  | [], _ => ""
  | [a], _ => a
  | a :: b :: rest, sep => a ++ sep ++ Join (b :: rest) sep

end strings

namespace strconv

/-- The two error kinds of `strconv.NumError`. -/
inductive NumError where
  | ErrSyntax
  | ErrRange
  deriving DecidableEq, Repr

/-- The constant `maxUint64`. -/
def maxUint64 : Nat := 2 ^ 64 - 1

/-- Loop of `ParseUint(s, 10, 64)` over the remaining characters with the
accumulator `n`. A character outside `0`..`9` is a syntax error (letters are
digits `>= 10`, hence `>= base`; every byte of a non-ASCII character falls in
the `default` case). `n >= cutoff` and an overflowing `n*10 + d` are range
errors that return `maxVal`. -/
def parseUintLoop : List Char → Nat → Nat × Option NumError
  | [], n => (n, none)
  | c :: cs, n =>
    if '0' ≤ c ∧ c ≤ '9' then
      let d := c.toNat - '0'.toNat
      if n ≥ maxUint64 / 10 + 1 then (maxUint64, some .ErrRange)
      else
        let n10 := (n * 10) % 2 ^ 64
        let n1 := (n10 + d) % 2 ^ 64
        if n1 < n10 ∨ n1 > maxUint64 then (maxUint64, some .ErrRange)
        else parseUintLoop cs n1
    else (0, some .ErrSyntax)

/-- Embedding of `strconv.ParseUint(s, 10, 64)`. -/
def ParseUint (s : List Char) : Nat × Option NumError :=
  match s with
  | [] => (0, some .ErrSyntax)
  | _ => parseUintLoop s 0

/-- Conversion `int64(un)` of an unsigned 64-bit value. -/
def toInt64 (un : Nat) : Int :=
  if un % 2 ^ 64 < 2 ^ 63 then ((un % 2 ^ 64 : Nat) : Int)
  else ((un % 2 ^ 64 : Nat) : Int) - 2 ^ 64

/-- Wrap-around of an integer into the `int64` range. -/
def wrapInt64 (x : Int) : Int :=
  (x + 2 ^ 63) % 2 ^ 64 - 2 ^ 63

/-- Embedding of `strconv.ParseInt(s, 10, 64)`: the returned value and the
error. On a syntax error the value is `0`; on a range error it is the
`int64` of largest magnitude with the sign of the input. -/
def ParseInt (s : String) : Int × Option NumError :=
  match s.data with
  | [] => (0, some .ErrSyntax)
  | c :: cs =>
    let neg := c = '-'
    let rest := if c = '+' then cs else if c = '-' then cs else c :: cs
    match ParseUint rest with
    | (_, some .ErrSyntax) => (0, some .ErrSyntax)
    | (un, e) =>
      let cutoff : Nat := 2 ^ 63
      if ¬ neg ∧ un ≥ cutoff then ((cutoff : Int) - 1, some .ErrRange)
      else if neg ∧ un > cutoff then (-(cutoff : Int), some .ErrRange)
      else
        let n := toInt64 un
        (if neg then wrapInt64 (-n) else n, e)

end strconv

/-! ## Data model -/

namespace commands

/-- A Go `error` value as the handlers build or receive it: `errors.New(text)`,
the `*strconv.NumError` of a failed `ParseInt(num, 10, 64)`, an error handed
back by a collaborating service, or the error struct of a collaborating
package (its `Message` and `Err` fields) used as the `error` value itself, as
in `Err: gfErr`. -/
inductive GoError where
  | New (text : String)
  | NumError (num : String) (err : strconv.NumError)
  | Service (text : String)
  | Struct (Message : String) (Err : GoError)
  deriving DecidableEq, Repr

/-- The struct `commands.Error`: a user-facing message and the wrapped error.
The error structs of the collaborating packages (`guildconfigservice.Error`,
`discordapi.Error`, the cache error) carry the same two fields the handlers
read and share this type. -/
structure Error where
  Message : String
  Err : GoError
  deriving DecidableEq, Repr

/-- The fields of `configs.Command` the handlers read. -/
structure Command where
  Name : String
  MinArgs : Int
  MaxArgs : Int
  deriving DecidableEq, Repr

/-- The fields of `discordgo.User` the handlers read (`mc.Author`). -/
structure User where
  ID : String
  Username : String
  deriving DecidableEq, Repr

/-- The fields of `discordgo.MessageCreate` the handlers read; `Roles` is
`mc.Member.Roles`. The pointers `mc.Author` and `mc.Member` are taken to be
non-nil. -/
structure MessageCreate where
  Content : String
  ChannelID : String
  GuildID : String
  Author : User
  Roles : List String
  deriving DecidableEq, Repr

/-- The struct `BanPlayerCommandParams`. -/
structure BanPlayerCommandParams where
  PlayerName : String
  ServerID : Int
  deriving DecidableEq, Repr

/-- The struct `BanPlayerCommand`. -/
structure BanPlayerCommand where
  Params : BanPlayerCommandParams
  deriving DecidableEq, Repr

/-- The struct `RestartServerCommandParams`. -/
structure RestartServerCommandParams where
  ServerID : Int
  Message : String
  deriving DecidableEq, Repr

/-- The struct `RestartServerCommand`. -/
structure RestartServerCommand where
  Params : RestartServerCommandParams
  deriving DecidableEq, Repr

/-- What a parser call does: it returns a command, returns an error, or stops
with the Go run-time panic `index out of range`. -/
inductive Parsed (α : Type) where
  | ok (cmd : α)
  | error (e : Error)
  | indexOutOfRange
  deriving DecidableEq, Repr

/-! ## The parsers -/

/-- The error built when the argument count is outside `MinArgs..MaxArgs`. -/
def invalidArgs (given : Int) (command : Command) : Error :=
  { Message := "Command given " ++ toString given ++ " arguments, expects "
      ++ toString command.MinArgs ++ " to " ++ toString command.MaxArgs ++ " arguments."
    Err := .New "invalid number of arguments" }

/-- The error of `parseBanPlayerCommand` for a missing player name. -/
def missingPlayerName : Error :=
  { Message := "Missing player account name", Err := .New "no player account name" }

/-- Embedding of `parseBanPlayerCommand`. -/
def parseBanPlayerCommand (command : Command) (mc : MessageCreate) :
    Parsed BanPlayerCommand :=
  let splitContent := strings.Split mc.Content
  if (splitContent.length : Int) - 1 < command.MinArgs
      ∨ (splitContent.length : Int) - 1 > command.MaxArgs then
    .error (invalidArgs ((splitContent.length : Int) - 1) command)
  else
    match splitContent[1]? with
    | none => .indexOutOfRange
    | some first =>
      match strconv.ParseInt first with
      | (serverIDInt, some _) =>
        .ok { Params := { PlayerName := strings.Join (splitContent.drop 1) " "
                          ServerID := serverIDInt } }
      | (serverIDInt, none) =>
        if splitContent.length > 2 then
          .ok { Params := { PlayerName := strings.Join (splitContent.drop 2) " "
                            ServerID := serverIDInt } }
        else .error missingPlayerName

/-- The default restart message,
`fmt.Sprintf("A restart has been requested by %s on Discord", username)`. -/
def defaultRestartMessage (username : String) : String :=
  "A restart has been requested by " ++ username ++ " on Discord"

/-- Embedding of `parseRestartServerCommand`. -/
def parseRestartServerCommand (command : Command) (mc : MessageCreate) :
    Parsed RestartServerCommand :=
  let splitContent := strings.Split mc.Content
  if (splitContent.length : Int) - 1 < command.MinArgs
      ∨ (splitContent.length : Int) - 1 > command.MaxArgs then
    .error (invalidArgs ((splitContent.length : Int) - 1) command)
  else if splitContent.length = 1 then
    .ok { Params := { ServerID := 0, Message := defaultRestartMessage mc.Author.Username } }
  else
    match splitContent[1]? with
    | none => .indexOutOfRange
    | some first =>
      match strconv.ParseInt first with
      | (_, some _) =>
        .ok { Params := { ServerID := 0, Message := strings.Join (splitContent.drop 1) " " } }
      | (serverIDInt, none) =>
        if splitContent.length > 2 then
          .ok { Params := { ServerID := serverIDInt
                            Message := strings.Join (splitContent.drop 2) " " } }
        else
          .ok { Params := { ServerID := serverIDInt
                            Message := defaultRestartMessage mc.Author.Username } }

/-! ## Collaborators and effects -/

/-- The fields of `gcscmodels.Server` the handlers read. -/
structure Server where
  ID : Int
  NitradoID : Int
  Name : String
  Enabled : Bool
  deriving DecidableEq, Repr

/-- The guild of a guild feed, `guildFeed.Payload.Guild`, with its servers. -/
structure Guild where
  Servers : List Server
  deriving DecidableEq, Repr

/-- What `guildconfigservice.GetGuildFeed` hands back: a feed or an error. -/
inductive FeedReply where
  | feed (guild : Guild)
  | failed (gfErr : Error)
  deriving DecidableEq, Repr

/-- An entry of `Config.Reactions`. -/
structure Reaction where
  Name : String
  ID : String
  FullEmoji : String
  deriving DecidableEq, Repr

/-- One entry of `Config.CacheSettings`: key namespace and TTL string. -/
structure CacheSetting where
  Base : String
  TTL : String
  deriving DecidableEq, Repr

/-- The two entries of `Config.CacheSettings` the handlers read. -/
structure CacheSettings where
  BanReaction : CacheSetting
  RestartReaction : CacheSetting
  deriving DecidableEq, Repr

/-- The fields of `Config.Bot` the handlers read. -/
structure Bot where
  DocumentationURL : String
  WorkingThumbnail : String
  WarnThumbnail : String
  deriving DecidableEq, Repr

/-- The configuration `c.Config`; `Reactions` is a Go map, absent keys are
`none`. -/
structure Config where
  Bot : Bot
  Reactions : String → Option Reaction
  CacheSettings : CacheSettings

/-- The struct `models.Reaction`. -/
structure ModelReaction where
  Name : String
  ID : String
  deriving DecidableEq, Repr

/-- The struct `models.User`. -/
structure ModelUser where
  ID : String
  Name : String
  deriving DecidableEq, Repr

/-- The struct `models.Server`. -/
structure ModelServer where
  ID : Int
  deriving DecidableEq, Repr

/-- The struct `models.BanReaction`, the durable record of a pending ban. -/
structure BanReaction where
  PlayerName : String
  Reactions : List ModelReaction
  User : ModelUser
  Servers : List ModelServer
  deriving DecidableEq, Repr

/-- The struct `models.RestartReaction`, the durable record of a pending
restart. -/
structure RestartReaction where
  Reactions : List ModelReaction
  User : ModelUser
  Message : String
  Servers : List ModelServer
  deriving DecidableEq, Repr

/-- A value handed to `Cache.SetStruct`. -/
inductive CacheValue where
  | ban (r : BanReaction)
  | restart (r : RestartReaction)
  deriving DecidableEq, Repr

/-- The struct `BanPlayerCommandConfirmationOutput`. -/
structure BanPlayerCommandConfirmationOutput where
  Servers : List Server
  PlayerName : String
  deriving DecidableEq, Repr

/-- The struct `RestartServerCommandConfirmationOutput`. -/
structure RestartServerCommandConfirmationOutput where
  Servers : List Server
  Message : String
  deriving DecidableEq, Repr

/-- The values of interface type `discordapi.EmbeddableField` the handlers
build. -/
inductive EmbeddableField where
  | ban (o : BanPlayerCommandConfirmationOutput)
  | restart (o : RestartServerCommandConfirmationOutput)
  deriving DecidableEq, Repr

/-- The struct `discordapi.EmbeddableParams`. -/
structure EmbeddableParams where
  Title : String
  Description : String
  TitleURL : String
  Footer : String
  ThumbnailURL : String
  deriving DecidableEq, Repr

/-- The field of `discordgo.Message` the handlers read. -/
structure Message where
  ID : String
  deriving DecidableEq, Repr

/-- The struct `reactions.MessageAwaitingReaction`. -/
structure MessageAwaitingReaction where
  Expires : Int
  Reactions : List String
  CommandName : String
  User : String
  deriving DecidableEq, Repr

/-- The receiver `c *Commands`: configuration and the map
`c.MessagesAwaitingReaction.Messages` (taken to be initialised). -/
structure Commands where
  Config : Config
  Messages : String → Option MessageAwaitingReaction

/-- Outcomes of the external calls of one handler run. Each call is made at
most once per run, so one outcome per call describes every run. `CacheKey` is
the method `CacheKey(base, messageID)` of the two reaction models. -/
structure World where
  GetGuildFeed : FeedReply
  ValidateGuildFeed : Option Error
  IsApproved : Bool
  IsAdmin : Bool × Option Error
  Output : List Message × Option Error
  AddReaction : Option Error
  SetStruct : Option Error
  Now : Int
  CacheKey : CacheValue → String → String → String

/-- An external call together with what it returned. -/
inductive Effect where
  | ErrorOutput (command : Command) (content channelID : String) (err : Error)
  | GetGuildFeed (guildID : String) (reply : FeedReply)
  | IsApproved (guild : Guild) (commandName : String) (roles : List String) (ok : Bool)
  | IsAdmin (guildID : String) (roles : List String) (isAdmin : Bool) (iaErr : Option Error)
  | Output (channelID : String) (params : EmbeddableParams)
      (fields errors : List EmbeddableField) (messages : List Message) (sErr : Option Error)
  | AddReaction (channelID messageID emoji : String) (arErr : Option Error)
  | SetStruct (key : String) (value : CacheValue) (ttl : String) (setCacheErr : Option Error)
  deriving DecidableEq, Repr

/-- The `return` statement (or panic) through which a handler run ends. -/
inductive Exit where
  | panicked
  | parseError
  | guildFeedError
  | validateError
  | adminError
  | unauthorized
  | noTargetServers
  | missingReaction
  | outputError
  | noOutputMessages
  | addReactionError
  | setCacheError
  | ttlError
  | registered
  deriving DecidableEq, Repr

/-- A finished handler run. -/
structure Run where
  exit : Exit
  trace : List Effect
  Messages : String → Option MessageAwaitingReaction

/-- A `return` after `c.ErrorOutput(ctx, command, mc.Content, mc.ChannelID, e)`. -/
def fail (c : Commands) (mc : MessageCreate) (command : Command)
    (exit : Exit) (trace : List Effect) (e : Error) : Run :=
  { exit := exit
    trace := trace ++ [.ErrorOutput command mc.Content mc.ChannelID e]
    Messages := c.Messages }

/-- The server-selection loop of both handlers (lines 81-96), with the slice
`servers` built so far as accumulator. -/
def selectServers (serverID : Int) : List Server → List Server → List Server
  | [], servers => servers
  | aServer :: rest, servers =>
    if ¬ aServer.Enabled then selectServers serverID rest servers
    else if serverID ≠ 0 then
      if serverID = aServer.NitradoID then servers ++ [aServer]
      else selectServers serverID rest servers
    else selectServers serverID rest (servers ++ [aServer])

/-! ## The handlers -/

/-- Lines 81-209 of `BanPlayer`: everything after the authorization gate.
`trace` holds the calls made so far. -/
def banPlayerPrompt (c : Commands) (w : World) (mc : MessageCreate) (command : Command)
    (parsedCommand : BanPlayerCommand) (guild : Guild) (trace : List Effect) : Run :=
  let servers := selectServers parsedCommand.Params.ServerID guild.Servers []
  if servers.length = 0 then
    fail c mc command .noTargetServers trace
      { Message := "Unable to find servers to ban on"
        Err := .New "invalid server id or no servers set up" }
  else
  match c.Config.Reactions "ban" with
  | none =>
    fail c mc command .missingReaction trace
      { Message := "Unable to find reactions for command", Err := .New "missing ban reaction" }
  | some reaction =>
  let reactionModel : BanReaction :=
    { PlayerName := parsedCommand.Params.PlayerName
      Reactions := [{ Name := reaction.Name, ID := reaction.ID }]
      User := { ID := mc.Author.ID, Name := mc.Author.Username }
      Servers := servers.map fun aServer => { ID := aServer.ID } }
  let embeddableFields : List EmbeddableField :=
    [.ban { Servers := servers, PlayerName := parsedCommand.Params.PlayerName }]
  let embeddableErrors : List EmbeddableField := []
  let embedParams : EmbeddableParams :=
    { Title := "Ban " ++ parsedCommand.Params.PlayerName
      Description := "Banning may take up to 5 minutes for Nitrado to process. Please press the <"
        ++ reaction.FullEmoji ++ "> reaction to confirm the ban."
      TitleURL := c.Config.Bot.DocumentationURL
      Footer := "Executed by " ++ mc.Author.Username
      ThumbnailURL :=
        if embeddableErrors.length = 0 then c.Config.Bot.WorkingThumbnail
        else c.Config.Bot.WarnThumbnail }
  let trace := trace ++
    [.Output mc.ChannelID embedParams embeddableFields embeddableErrors w.Output.1 w.Output.2]
  match w.Output with
  | (_, some sErr) =>
    fail c mc command .outputError trace { Message := sErr.Message, Err := sErr.Err }
  | ([], none) =>
    fail c mc command .noOutputMessages trace
      { Message := "Failed to get output messages", Err := .New "no messages in response" }
  | (first :: _, none) =>
  let trace := trace ++ [.AddReaction mc.ChannelID first.ID reaction.FullEmoji w.AddReaction]
  match w.AddReaction with
  | some arErr =>
    fail c mc command .addReactionError trace { Message := arErr.Message, Err := arErr.Err }
  | none =>
  let cacheKey := w.CacheKey (.ban reactionModel) c.Config.CacheSettings.BanReaction.Base first.ID
  let trace := trace ++
    [.SetStruct cacheKey (.ban reactionModel) c.Config.CacheSettings.BanReaction.TTL w.SetStruct]
  match w.SetStruct with
  | some setCacheErr =>
    fail c mc command .setCacheError trace
      { Message := setCacheErr.Message, Err := setCacheErr.Err }
  | none =>
  match strconv.ParseInt c.Config.CacheSettings.BanReaction.TTL with
  | (_, some ttlErr) =>
    fail c mc command .ttlError trace
      { Message := "Failed to convert ban reaction TTL to int64"
        Err := .NumError c.Config.CacheSettings.BanReaction.TTL ttlErr }
  | (ttl, none) =>
    { exit := .registered
      trace := trace
      Messages := Function.update c.Messages first.ID
        (some { Expires := strconv.wrapInt64 (w.Now + ttl)
                Reactions := [reaction.ID]
                CommandName := command.Name
                User := mc.Author.ID }) }

/-- Embedding of `(c *Commands) BanPlayer`: parsing, guild feed, validation and
the authorization gate (lines 40-79), then `banPlayerPrompt`. -/
def BanPlayer (c : Commands) (w : World) (mc : MessageCreate) (command : Command) : Run :=
  match parseBanPlayerCommand command mc with
  | .indexOutOfRange => { exit := .panicked, trace := [], Messages := c.Messages }
  | .error nscErr => fail c mc command .parseError [] nscErr
  | .ok parsedCommand =>
  let trace := [Effect.GetGuildFeed mc.GuildID w.GetGuildFeed]
  match w.GetGuildFeed with
  | .failed gfErr =>
    fail c mc command .guildFeedError trace
      { Message := gfErr.Message, Err := .Struct gfErr.Message gfErr.Err }
  | .feed guild =>
  match w.ValidateGuildFeed with
  | some vErr =>
    fail c mc command .validateError trace
      { Message := vErr.Message, Err := .Struct vErr.Message vErr.Err }
  | none =>
  let trace := trace ++ [.IsApproved guild command.Name mc.Roles w.IsApproved]
  if w.IsApproved then banPlayerPrompt c w mc command parsedCommand guild trace
  else
    let trace := trace ++ [.IsAdmin mc.GuildID mc.Roles w.IsAdmin.1 w.IsAdmin.2]
    match w.IsAdmin with
    | (_, some iaErr) => fail c mc command .adminError trace iaErr
    | (false, none) =>
      fail c mc command .unauthorized trace
        { Message := "Unauthorized to use this command", Err := .New "user is not authorized" }
    | (true, none) => banPlayerPrompt c w mc command parsedCommand guild trace

/-- Lines 81-208 of `RestartServer`: everything after the authorization gate.
`trace` holds the calls made so far. -/
def restartServerPrompt (c : Commands) (w : World) (mc : MessageCreate) (command : Command)
    (parsedCommand : RestartServerCommand) (guild : Guild) (trace : List Effect) : Run :=
  let servers := selectServers parsedCommand.Params.ServerID guild.Servers []
  if servers.length = 0 then
    fail c mc command .noTargetServers trace
      { Message := "Unable to find servers to restart"
        Err := .New "invalid server id or no servers set up" }
  else
  match c.Config.Reactions "restart" with
  | none =>
    fail c mc command .missingReaction trace
      { Message := "Unable to find reactions for command"
        Err := .New "missing restart reaction" }
  | some reaction =>
  let reactionModel : RestartReaction :=
    { Reactions := [{ Name := reaction.Name, ID := reaction.ID }]
      User := { ID := mc.Author.ID, Name := mc.Author.Username }
      Message := parsedCommand.Params.Message
      Servers := servers.map fun aServer => { ID := aServer.ID } }
  let embeddableFields : List EmbeddableField :=
    [.restart { Servers := servers, Message := parsedCommand.Params.Message }]
  let embeddableErrors : List EmbeddableField := []
  let embedParams : EmbeddableParams :=
    { Title := command.Name
      Description := "Restarting may wait for the \"restart countdown\". Please press the <"
        ++ reaction.FullEmoji ++ "> reaction to confirm the restart."
      TitleURL := c.Config.Bot.DocumentationURL
      Footer := "Executed by " ++ mc.Author.Username
      ThumbnailURL :=
        if embeddableErrors.length = 0 then c.Config.Bot.WorkingThumbnail
        else c.Config.Bot.WarnThumbnail }
  let trace := trace ++
    [.Output mc.ChannelID embedParams embeddableFields embeddableErrors w.Output.1 w.Output.2]
  match w.Output with
  | (_, some sErr) =>
    fail c mc command .outputError trace { Message := sErr.Message, Err := sErr.Err }
  | ([], none) =>
    fail c mc command .noOutputMessages trace
      { Message := "Failed to get output messages", Err := .New "no messages in response" }
  | (first :: _, none) =>
  let trace := trace ++ [.AddReaction mc.ChannelID first.ID reaction.FullEmoji w.AddReaction]
  match w.AddReaction with
  | some arErr =>
    fail c mc command .addReactionError trace { Message := arErr.Message, Err := arErr.Err }
  | none =>
  let cacheKey :=
    w.CacheKey (.restart reactionModel) c.Config.CacheSettings.RestartReaction.Base first.ID
  let trace := trace ++
    [.SetStruct cacheKey (.restart reactionModel) c.Config.CacheSettings.BanReaction.TTL
      w.SetStruct]
  match w.SetStruct with
  | some setCacheErr =>
    fail c mc command .setCacheError trace
      { Message := setCacheErr.Message, Err := setCacheErr.Err }
  | none =>
  match strconv.ParseInt c.Config.CacheSettings.RestartReaction.TTL with
  | (_, some ttlErr) =>
    fail c mc command .ttlError trace
      { Message := "Failed to convert reaction TTL to int64"
        Err := .NumError c.Config.CacheSettings.RestartReaction.TTL ttlErr }
  | (ttl, none) =>
    { exit := .registered
      trace := trace
      Messages := Function.update c.Messages first.ID
        (some { Expires := strconv.wrapInt64 (w.Now + ttl)
                Reactions := [reaction.ID]
                CommandName := command.Name
                User := mc.Author.ID }) }

/-- Embedding of `(c *Commands) RestartServer`: parsing, guild feed, validation
and the authorization gate (lines 40-79), then `restartServerPrompt`. -/
def RestartServer (c : Commands) (w : World) (mc : MessageCreate) (command : Command) : Run :=
  match parseRestartServerCommand command mc with
  | .indexOutOfRange => { exit := .panicked, trace := [], Messages := c.Messages }
  | .error nscErr => fail c mc command .parseError [] nscErr
  | .ok parsedCommand =>
  let trace := [Effect.GetGuildFeed mc.GuildID w.GetGuildFeed]
  match w.GetGuildFeed with
  | .failed gfErr =>
    fail c mc command .guildFeedError trace
      { Message := gfErr.Message, Err := .Struct gfErr.Message gfErr.Err }
  | .feed guild =>
  match w.ValidateGuildFeed with
  | some vErr =>
    fail c mc command .validateError trace
      { Message := vErr.Message, Err := .Struct vErr.Message vErr.Err }
  | none =>
  let trace := trace ++ [.IsApproved guild command.Name mc.Roles w.IsApproved]
  if w.IsApproved then restartServerPrompt c w mc command parsedCommand guild trace
  else
    let trace := trace ++ [.IsAdmin mc.GuildID mc.Roles w.IsAdmin.1 w.IsAdmin.2]
    match w.IsAdmin with
    | (_, some iaErr) => fail c mc command .adminError trace iaErr
    | (false, none) =>
      fail c mc command .unauthorized trace
        { Message := "Unauthorized to use this command", Err := .New "user is not authorized" }
    | (true, none) => restartServerPrompt c w mc command parsedCommand guild trace

end commands

/-! ## Example inputs -/

namespace commands

/-- Example inputs: a ban command declared with one to a hundred arguments. -/
def banCommand : Command := { Name := "ban", MinArgs := 1, MaxArgs := 100 }

/-- Example inputs: a restart command declared with zero to a hundred arguments. -/
def restartCommand : Command := { Name := "restart", MinArgs := 0, MaxArgs := 100 }

/-- Example inputs: a message with the given content, written by user `Bob`. -/
def messageOf (content : String) : MessageCreate :=
  { Content := content, ChannelID := "chan", GuildID := "guild"
    Author := { ID := "u1", Username := "Bob" }, Roles := ["mod"] }

/-- Example inputs: both reactions configured; the ban TTL is `300`, the
restart TTL is `600`. -/
def exampleConfig : Config :=
  { Bot := { DocumentationURL := "doc", WorkingThumbnail := "working", WarnThumbnail := "warn" }
    Reactions := fun name =>
      if name = "ban" then some { Name := "hammer", ID := "r1", FullEmoji := "hammer:r1" }
      else if name = "restart" then some { Name := "cycle", ID := "r2", FullEmoji := "cycle:r2" }
      else none
    CacheSettings :=
      { BanReaction := { Base := "ban-reaction", TTL := "300" }
        RestartReaction := { Base := "restart-reaction", TTL := "600" } } }

/-- Example inputs: the example configuration with nothing awaiting a reaction. -/
def exampleCommands : Commands :=
  { Config := exampleConfig, Messages := fun _ => none }

/-- Example inputs: a guild with two enabled servers and one disabled server. -/
def exampleGuild : Guild :=
  { Servers := [ { ID := 1, NitradoID := 12345, Name := "alpha", Enabled := true },
                 { ID := 2, NitradoID := 777, Name := "beta", Enabled := false },
                 { ID := 3, NitradoID := 888, Name := "gamma", Enabled := true } ] }

/-- Example inputs: a run in which the guild approves the actor and every
external call succeeds; the prompt is posted as message `m1` at time `1000`. -/
def exampleWorld : World :=
  { GetGuildFeed := .feed exampleGuild
    ValidateGuildFeed := none
    IsApproved := true
    IsAdmin := (false, none)
    Output := ([{ ID := "m1" }], none)
    AddReaction := none
    SetStruct := none
    Now := 1000
    CacheKey := fun _ base messageID => base ++ ":" ++ messageID }

/-- Example inputs: an error of the cache backend. -/
def storageDown : Error := { Message := "cache unavailable", Err := .Service "dial tcp: timeout" }

/-- Example inputs: an error of the global-admin lookup. -/
def adminLookupDown : Error :=
  { Message := "admin lookup failed", Err := .Service "guild service unreachable" }

/-- Example inputs: the guild does not approve the actor and the global-admin
lookup comes back with an error next to the value `true`. -/
def adminErrorWorld : World :=
  { exampleWorld with IsApproved := false, IsAdmin := (true, some adminLookupDown) }

/-- Example inputs: every call succeeds up to the durable write, which fails. -/
def cacheDownWorld : World :=
  { exampleWorld with SetStruct := some storageDown }

/-! ## Observations on runs -/

/-- The run left the handler through a `return` below the authorization gate
(line 98 onwards): it went on to select servers. -/
def Exit.pastGate : Exit → Bool
  | .noTargetServers | .missingReaction | .outputError | .noOutputMessages
  | .addReactionError | .setCacheError | .ttlError | .registered => true
  | .panicked | .parseError | .guildFeedError | .validateError
  | .adminError | .unauthorized => false

/-- The effect is a call of `IsAdmin`. -/
def Effect.isIsAdmin : Effect → Bool
  | .IsAdmin .. => true
  | _ => false

/-- The effect is a call of `c.Output`, the posting of the prompt. -/
def Effect.isOutput : Effect → Bool
  | .Output .. => true
  | _ => false

/-- The effect is a call of `discordapi.AddReaction`. -/
def Effect.isAddReaction : Effect → Bool
  | .AddReaction .. => true
  | _ => false

/-- The effect is a call of `Cache.SetStruct`, the durable write. -/
def Effect.isSetStruct : Effect → Bool
  | .SetStruct .. => true
  | _ => false

/-- The three calls that make up a confirmation prompt. -/
inductive PromptStep where
  | post
  | react
  | write
  deriving DecidableEq, Repr

/-- The prompt step an effect performs, if any, and whether it succeeded:
`Output` succeeds when it returns a message and no error, `AddReaction` and
`SetStruct` when they return no error. -/
def Effect.promptStep : Effect → Option (PromptStep × Bool)
  | .Output _ _ _ _ (_ :: _) none => some (.post, true)
  | .Output .. => some (.post, false)
  | .AddReaction _ _ _ none => some (.react, true)
  | .AddReaction .. => some (.react, false)
  | .SetStruct _ _ _ none => some (.write, true)
  | .SetStruct .. => some (.write, false)
  | _ => none

/-- The prompt steps of a trace, in the order they were made. -/
def promptSteps (trace : List Effect) : List (PromptStep × Bool) :=
  trace.filterMap Effect.promptStep

/-- The durable write comes first: no `Output` or `AddReaction` call occurs in
the trace ahead of the first `SetStruct` call. -/
def writeBeforePrompt : List Effect → Bool
  | [] => true
  | .SetStruct .. :: _ => true
  | .Output .. :: _ => false
  | .AddReaction .. :: _ => false
  | _ :: rest => writeBeforePrompt rest

/-- The run ends with a posted prompt that carries the confirmation reaction
and has no durable record. -/
def livePromptWithoutRecord (trace : List Effect) : Bool :=
  (promptSteps trace).contains (.post, true) && (promptSteps trace).contains (.react, true)
    && !(promptSteps trace).contains (.write, true)

/-- The durable write of the run succeeded. -/
def durablyWritten (run : Run) : Prop :=
  (PromptStep.write, true) ∈ promptSteps run.trace

/-- Example inputs: the example configuration with TTL strings that are not
integers. -/
def durationConfig : Commands :=
  { Config := { exampleConfig with
      CacheSettings := { BanReaction := { Base := "ban-reaction", TTL := "5m" }
                         RestartReaction := { Base := "restart-reaction", TTL := "10m" } } }
    Messages := fun _ => none }

/-- Reference selection of target servers, in the words of the specification:
for `s = 0` the enabled servers in order, otherwise the first enabled server
whose `NitradoID` is `s`, if there is one. -/
def targetServersReference (L : List Server) (s : Int) : List Server :=
  if s = 0 then L.filter fun a => a.Enabled
  else
    match L.find? fun a => a.Enabled && decide (a.NitradoID = s) with
    | some a => [a]
    | none => []

/-- The contract of the authorization gate for a run that reached it with the
guild `guild` and the parsed `ServerID` `serverID`, in terms of the calls the
run made and of `MessagesAwaitingReaction`. -/
def gateContract (reactionName noTargetsMessage : String) (c : Commands) (w : World)
    (mc : MessageCreate) (command : Command) (guild : Guild) (serverID : Int)
    (run : Run) : Prop :=
  (run.trace.any Effect.isOutput = true ↔
      (w.IsApproved = true ∨ w.IsAdmin = (true, none))
        ∧ selectServers serverID guild.Servers [] ≠ []
        ∧ c.Config.Reactions reactionName ≠ none)
  ∧ ((w.IsApproved = true ∨ w.IsAdmin = (true, none)) →
      selectServers serverID guild.Servers [] = [] →
      run.trace.getLast? = some (.ErrorOutput command mc.Content mc.ChannelID
        { Message := noTargetsMessage, Err := .New "invalid server id or no servers set up" })
      ∧ run.Messages = c.Messages)
  ∧ (w.IsApproved = false → ∀ isAdmin iaErr, w.IsAdmin = (isAdmin, some iaErr) →
      run.trace = [ .GetGuildFeed mc.GuildID (.feed guild),
                    .IsApproved guild command.Name mc.Roles false,
                    .IsAdmin mc.GuildID mc.Roles isAdmin (some iaErr),
                    .ErrorOutput command mc.Content mc.ChannelID iaErr ]
      ∧ run.Messages = c.Messages)
  ∧ (w.IsApproved = false → w.IsAdmin = (false, none) →
      run.trace = [ .GetGuildFeed mc.GuildID (.feed guild),
                    .IsApproved guild command.Name mc.Roles false,
                    .IsAdmin mc.GuildID mc.Roles false none,
                    .ErrorOutput command mc.Content mc.ChannelID
                      { Message := "Unauthorized to use this command"
                        Err := .New "user is not authorized" } ]
      ∧ run.Messages = c.Messages)
  ∧ ((∃ ev ∈ run.trace, ev.isIsAdmin = true) ↔ w.IsApproved = false)
  ∧ (run.exit.pastGate = true ↔ (w.IsApproved = true ∨ w.IsAdmin = (true, none)))

/-- The order of the prompt steps as the handlers make them, for the reaction
configured under `reactionName` and the cache key namespace `base`: the prompt
is posted, then the confirmation reaction is added to the posted message, then
the durable record is written under the key of that message, each step only
after the one before succeeded; a failed write is reported with the error of
the cache and leaves `MessagesAwaitingReaction` as it was, with the prompt
posted and the reaction added. -/
def promptOrderContract (reactionName base : String) (c : Commands) (w : World)
    (mc : MessageCreate) (command : Command) (run : Run) : Prop :=
  promptSteps run.trace ∈
      [ [], [(.post, false)], [(.post, true), (.react, false)],
        [(.post, true), (.react, true), (.write, false)],
        [(.post, true), (.react, true), (.write, true)] ]
  ∧ (∀ channelID messageID emoji arErr,
      Effect.AddReaction channelID messageID emoji arErr ∈ run.trace →
      ∃ m ms r, w.Output = (m :: ms, none) ∧ c.Config.Reactions reactionName = some r
        ∧ channelID = mc.ChannelID ∧ messageID = m.ID ∧ emoji = r.FullEmoji
        ∧ arErr = w.AddReaction)
  ∧ (∀ key value ttl setCacheErr,
      Effect.SetStruct key value ttl setCacheErr ∈ run.trace →
      ∃ m ms, w.Output = (m :: ms, none) ∧ key = w.CacheKey value base m.ID
        ∧ setCacheErr = w.SetStruct)
  ∧ ((PromptStep.write, false) ∈ promptSteps run.trace →
      ∃ m ms r setCacheErr,
        w.Output = (m :: ms, none) ∧ c.Config.Reactions reactionName = some r
        ∧ w.SetStruct = some setCacheErr
        ∧ Effect.AddReaction mc.ChannelID m.ID r.FullEmoji none ∈ run.trace
        ∧ run.trace.getLast? = some (.ErrorOutput command mc.Content mc.ChannelID
            { Message := setCacheErr.Message, Err := setCacheErr.Err })
        ∧ run.Messages = c.Messages
        ∧ run.exit = .setCacheError)

/-- How the two records of a pending action relate when a handler returns, in
terms of the calls the run made and of `MessagesAwaitingReaction`;
`reactionName` is the key of the configured reaction, `base` and `ttl` are the
cache settings the handler reads for the key and for the in-memory expiry, and
`ttlMessage` is the message of the error it reports when `ttl` is not an
integer. -/
def registryContract (reactionName base ttl ttlMessage : String) (c : Commands) (w : World)
    (mc : MessageCreate) (command : Command) (run : Run) : Prop :=
  (durablyWritten run → ∀ k, strconv.ParseInt ttl = (k, none) →
      ∃ m ms r value ttlArg,
        w.Output = (m :: ms, none) ∧ c.Config.Reactions reactionName = some r
        ∧ run.trace.getLast? = some (.SetStruct (w.CacheKey value base m.ID) value ttlArg none)
        ∧ run.Messages = Function.update c.Messages m.ID
            (some { Expires := strconv.wrapInt64 (w.Now + k)
                    Reactions := [r.ID]
                    CommandName := command.Name
                    User := mc.Author.ID }))
  ∧ (durablyWritten run → ∀ k ttlErr, strconv.ParseInt ttl = (k, some ttlErr) →
      run.trace.getLast? = some (.ErrorOutput command mc.Content mc.ChannelID
        { Message := ttlMessage, Err := .NumError ttl ttlErr })
      ∧ run.Messages = c.Messages)
  ∧ (¬ durablyWritten run → run.Messages = c.Messages)
  ∧ (run.exit = .registered ↔ (durablyWritten run ∧ (strconv.ParseInt ttl).2 = none))
  ∧ (durablyWritten run → (strconv.ParseInt ttl).2 ≠ none → run.exit = .ttlError)

/-! ### Auxiliary facts about `Split` and `Join` -/

theorem splitChars_ne_nil (s : List Char) : strings.splitChars s ≠ [] := by
  cases s with
  | nil => simp [strings.splitChars]
  | cons c cs =>
    unfold strings.splitChars
    split
    · simp
    · split <;> simp

theorem Split_ne_nil (s : String) : strings.Split s ≠ [] := by
  simp [strings.Split, splitChars_ne_nil]

theorem append_eq_empty_right (a b : String) (h : a ++ b = "") : b = "" := by
  have h2 : (a ++ b).data = [] := by rw [h]
  rw [String.data_append] at h2
  exact String.ext (List.append_eq_nil.mp h2).2

theorem Join_eq_empty (sep : String) :
    ∀ l : List String, l ≠ [] → strings.Join l sep = "" → l.getLast? = some "" := by
  intro l
  induction l with
  | nil => intro h; exact absurd rfl h
  | cons a t ih =>
    intro _ h
    cases t with
    | nil => simpa [strings.Join] using h
    | cons b rest =>
      have hj : strings.Join (b :: rest) sep = "" :=
        append_eq_empty_right _ _ (by simpa [strings.Join] using h)
      have := ih (by simp) hj
      simpa [List.getLast?_cons_cons] using this

/-! ### Auxiliary facts about server selection -/

theorem selectServers_acc (s : Int) (L : List Server) :
    ∀ acc, selectServers s L acc = acc ++ targetServersReference L s := by
  induction L with
  | nil => intro acc; simp [selectServers, targetServersReference]
  | cons a rest ih =>
    intro acc
    unfold selectServers
    by_cases hen : a.Enabled = true
    · by_cases hs : s = 0
      · subst hs
        simp [hen, ih, targetServersReference, List.filter_cons]
      · by_cases hid : s = a.NitradoID
        · subst hid
          simp [hen, hs, targetServersReference, List.find?_cons]
        · have hid2 : ¬ a.NitradoID = s := fun h => hid h.symm
          simp [hen, hs, hid, hid2, ih, targetServersReference, List.find?_cons]
    · simp [hen, ih, targetServersReference, List.filter_cons, List.find?_cons]

theorem targetServersReference_sound (L : List Server) (s : Int) :
    ∀ a ∈ targetServersReference L s, a.Enabled = true ∧ (s ≠ 0 → a.NitradoID = s) := by
  intro a ha
  unfold targetServersReference at ha
  split at ha
  · next hs => exact ⟨by simpa using (List.mem_filter.mp ha).2, fun h => absurd hs h⟩
  · split at ha
    · next x hx =>
      have := List.find?_some hx
      simp at ha
      subst ha
      simp at this
      exact ⟨this.1, fun _ => this.2⟩
    · simp at ha

/-! ### Auxiliary facts about the code below the gate -/

theorem banPlayerPrompt_pastGate (c : Commands) (w : World) (mc : MessageCreate)
    (command : Command) (p : BanPlayerCommand) (guild : Guild) (trace : List Effect) :
    (banPlayerPrompt c w mc command p guild trace).exit.pastGate = true := by
  unfold banPlayerPrompt
  simp only []
  repeat' split
  all_goals simp [fail, Exit.pastGate]

theorem restartServerPrompt_pastGate (c : Commands) (w : World) (mc : MessageCreate)
    (command : Command) (p : RestartServerCommand) (guild : Guild) (trace : List Effect) :
    (restartServerPrompt c w mc command p guild trace).exit.pastGate = true := by
  unfold restartServerPrompt
  simp only []
  repeat' split
  all_goals simp [fail, Exit.pastGate]

theorem banPlayerPrompt_trace (c : Commands) (w : World) (mc : MessageCreate)
    (command : Command) (p : BanPlayerCommand) (guild : Guild) (trace : List Effect) :
    ∃ more, (banPlayerPrompt c w mc command p guild trace).trace = trace ++ more
      ∧ ∀ ev ∈ more, ev.isIsAdmin = false := by
  unfold banPlayerPrompt
  simp only []
  repeat' split
  all_goals simp [fail, Effect.isIsAdmin]

theorem restartServerPrompt_trace (c : Commands) (w : World) (mc : MessageCreate)
    (command : Command) (p : RestartServerCommand) (guild : Guild) (trace : List Effect) :
    ∃ more, (restartServerPrompt c w mc command p guild trace).trace = trace ++ more
      ∧ ∀ ev ∈ more, ev.isIsAdmin = false := by
  unfold restartServerPrompt
  simp only []
  repeat' split
  all_goals simp [fail, Effect.isIsAdmin]

theorem banPlayerPrompt_noTargets (c : Commands) (w : World) (mc : MessageCreate)
    (command : Command) (p : BanPlayerCommand) (guild : Guild) (trace : List Effect) :
    (banPlayerPrompt c w mc command p guild trace).exit = .noTargetServers
      ↔ selectServers p.Params.ServerID guild.Servers [] = [] := by
  unfold banPlayerPrompt
  simp only []
  repeat' split
  all_goals simp_all [fail]

theorem restartServerPrompt_noTargets (c : Commands) (w : World) (mc : MessageCreate)
    (command : Command) (p : RestartServerCommand) (guild : Guild) (trace : List Effect) :
    (restartServerPrompt c w mc command p guild trace).exit = .noTargetServers
      ↔ selectServers p.Params.ServerID guild.Servers [] = [] := by
  unfold restartServerPrompt
  simp only []
  repeat' split
  all_goals simp_all [fail]

theorem BanPlayer_below_gate (c : Commands) (w : World) (mc : MessageCreate)
    (command : Command) (p : BanPlayerCommand) (guild : Guild)
    (hparse : parseBanPlayerCommand command mc = .ok p)
    (hfeed : w.GetGuildFeed = .feed guild) (hvalid : w.ValidateGuildFeed = none)
    (hgate : w.IsApproved = true ∨ w.IsAdmin = (true, none)) :
    ∃ trace, promptSteps trace = []
      ∧ BanPlayer c w mc command = banPlayerPrompt c w mc command p guild trace := by
  unfold BanPlayer
  simp only [hparse, hfeed, hvalid]
  cases happ : w.IsApproved with
  | true =>
    exact ⟨[.GetGuildFeed mc.GuildID (.feed guild), .IsApproved guild command.Name mc.Roles true],
      by simp [promptSteps, Effect.promptStep], by simp⟩
  | false =>
    rcases hgate with h | h
    · simp [happ] at h
    · exact ⟨[.GetGuildFeed mc.GuildID (.feed guild),
          .IsApproved guild command.Name mc.Roles false, .IsAdmin mc.GuildID mc.Roles true none],
        by simp [promptSteps, Effect.promptStep], by simp [h]⟩

theorem RestartServer_below_gate (c : Commands) (w : World) (mc : MessageCreate)
    (command : Command) (p : RestartServerCommand) (guild : Guild)
    (hparse : parseRestartServerCommand command mc = .ok p)
    (hfeed : w.GetGuildFeed = .feed guild) (hvalid : w.ValidateGuildFeed = none)
    (hgate : w.IsApproved = true ∨ w.IsAdmin = (true, none)) :
    ∃ trace, promptSteps trace = []
      ∧ RestartServer c w mc command = restartServerPrompt c w mc command p guild trace := by
  unfold RestartServer
  simp only [hparse, hfeed, hvalid]
  cases happ : w.IsApproved with
  | true =>
    exact ⟨[.GetGuildFeed mc.GuildID (.feed guild), .IsApproved guild command.Name mc.Roles true],
      by simp [promptSteps, Effect.promptStep], by simp⟩
  | false =>
    rcases hgate with h | h
    · simp [happ] at h
    · exact ⟨[.GetGuildFeed mc.GuildID (.feed guild),
          .IsApproved guild command.Name mc.Roles false, .IsAdmin mc.GuildID mc.Roles true none],
        by simp [promptSteps, Effect.promptStep], by simp [h]⟩

/-! ### The servers shown in the prompt -/

theorem no_output_of_no_prompt_steps (trace : List Effect)
    (h : List.filterMap Effect.promptStep trace = [])
    (channelID : String) (params : EmbeddableParams) (fields errors : List EmbeddableField)
    (messages : List Message) (sErr : Option Error) :
    Effect.Output channelID params fields errors messages sErr ∉ trace := by
  intro hmem
  have := (List.filterMap_eq_nil_iff.mp h) _ hmem
  cases messages <;> cases sErr <;> simp [Effect.promptStep] at this

theorem banPlayerPrompt_fields (c : Commands) (w : World) (mc : MessageCreate)
    (command : Command) (p : BanPlayerCommand) (guild : Guild) (trace : List Effect)
    (h : List.filterMap Effect.promptStep trace = [])
    (channelID : String) (params : EmbeddableParams) (fields errors : List EmbeddableField)
    (messages : List Message) (sErr : Option Error)
    (hmem : Effect.Output channelID params fields errors messages sErr
      ∈ (banPlayerPrompt c w mc command p guild trace).trace) :
    fields = [.ban { Servers := selectServers p.Params.ServerID guild.Servers []
                     PlayerName := p.Params.PlayerName }] := by
  have hno := no_output_of_no_prompt_steps trace h channelID params fields errors messages sErr
  unfold banPlayerPrompt at hmem
  simp only [] at hmem
  repeat' split at hmem
  all_goals simp only [fail] at hmem
  all_goals simp [hno] at hmem
  all_goals simp [hmem]

theorem restartServerPrompt_fields (c : Commands) (w : World) (mc : MessageCreate)
    (command : Command) (p : RestartServerCommand) (guild : Guild) (trace : List Effect)
    (h : List.filterMap Effect.promptStep trace = [])
    (channelID : String) (params : EmbeddableParams) (fields errors : List EmbeddableField)
    (messages : List Message) (sErr : Option Error)
    (hmem : Effect.Output channelID params fields errors messages sErr
      ∈ (restartServerPrompt c w mc command p guild trace).trace) :
    fields = [.restart { Servers := selectServers p.Params.ServerID guild.Servers []
                         Message := p.Params.Message }] := by
  have hno := no_output_of_no_prompt_steps trace h channelID params fields errors messages sErr
  unfold restartServerPrompt at hmem
  simp only [] at hmem
  repeat' split at hmem
  all_goals simp only [fail] at hmem
  all_goals simp [hno] at hmem
  all_goals simp [hmem]

/-! ### The calls of the code below the gate -/

theorem promptStep_none_of_no_prompt_steps (trace : List Effect)
    (h : List.filterMap Effect.promptStep trace = []) :
    ∀ ev ∈ trace, ev.promptStep = none :=
  List.filterMap_eq_nil_iff.mp h

theorem any_isOutput_of_no_prompt_steps (trace : List Effect)
    (h : List.filterMap Effect.promptStep trace = []) :
    trace.any Effect.isOutput = false := by
  rw [List.any_eq_false]
  intro ev hev
  have := promptStep_none_of_no_prompt_steps trace h ev hev
  cases ev <;> simp [Effect.isOutput] at *
  rename_i messages sErr
  cases messages <;> cases sErr <;> simp [Effect.promptStep] at this

theorem banPlayerPrompt_posts (c : Commands) (w : World) (mc : MessageCreate)
    (command : Command) (p : BanPlayerCommand) (guild : Guild) (trace : List Effect)
    (h : List.filterMap Effect.promptStep trace = []) :
    ((banPlayerPrompt c w mc command p guild trace).trace.any Effect.isOutput = true ↔
        selectServers p.Params.ServerID guild.Servers [] ≠ []
          ∧ c.Config.Reactions "ban" ≠ none)
    ∧ (selectServers p.Params.ServerID guild.Servers [] = [] →
        (banPlayerPrompt c w mc command p guild trace).trace
          = trace ++ [.ErrorOutput command mc.Content mc.ChannelID
              { Message := "Unable to find servers to ban on"
                Err := .New "invalid server id or no servers set up" }]
        ∧ (banPlayerPrompt c w mc command p guild trace).Messages = c.Messages)
    ∧ (selectServers p.Params.ServerID guild.Servers [] ≠ [] →
        c.Config.Reactions "ban" = none →
        (banPlayerPrompt c w mc command p guild trace).trace
          = trace ++ [.ErrorOutput command mc.Content mc.ChannelID
              { Message := "Unable to find reactions for command"
                Err := .New "missing ban reaction" }]
        ∧ (banPlayerPrompt c w mc command p guild trace).Messages = c.Messages) := by
  have hany := any_isOutput_of_no_prompt_steps trace h
  unfold banPlayerPrompt
  simp only []
  repeat' split
  all_goals simp only [fail]
  all_goals simp_all [Effect.isOutput]

theorem no_AddReaction_of_no_prompt_steps (trace : List Effect)
    (h : List.filterMap Effect.promptStep trace = [])
    (channelID messageID emoji : String) (arErr : Option Error) :
    Effect.AddReaction channelID messageID emoji arErr ∉ trace := by
  intro hmem
  have := promptStep_none_of_no_prompt_steps trace h _ hmem
  cases arErr <;> simp [Effect.promptStep] at this

theorem no_SetStruct_of_no_prompt_steps (trace : List Effect)
    (h : List.filterMap Effect.promptStep trace = [])
    (key : String) (value : CacheValue) (ttl : String) (setCacheErr : Option Error) :
    Effect.SetStruct key value ttl setCacheErr ∉ trace := by
  intro hmem
  have := promptStep_none_of_no_prompt_steps trace h _ hmem
  cases setCacheErr <;> simp [Effect.promptStep] at this

theorem banPlayerPrompt_order (c : Commands) (w : World) (mc : MessageCreate)
    (command : Command) (p : BanPlayerCommand) (guild : Guild) (trace : List Effect)
    (h : List.filterMap Effect.promptStep trace = []) :
    promptOrderContract "ban" c.Config.CacheSettings.BanReaction.Base c w mc command
      (banPlayerPrompt c w mc command p guild trace) := by
  have hadd := no_AddReaction_of_no_prompt_steps trace h
  have hset := no_SetStruct_of_no_prompt_steps trace h
  unfold promptOrderContract banPlayerPrompt
  simp only []
  repeat' split
  all_goals simp only [fail]
  all_goals simp only [promptSteps, List.filterMap_append, h]
  all_goals simp only [*, List.filterMap_cons, List.filterMap_nil, Effect.promptStep]
  all_goals simp [hadd, hset]
  all_goals (intros; subst_vars; simp)

theorem banPlayerPrompt_registry (c : Commands) (w : World) (mc : MessageCreate)
    (command : Command) (p : BanPlayerCommand) (guild : Guild) (trace : List Effect)
    (h : List.filterMap Effect.promptStep trace = []) :
    registryContract "ban" c.Config.CacheSettings.BanReaction.Base
      c.Config.CacheSettings.BanReaction.TTL "Failed to convert ban reaction TTL to int64"
      c w mc command (banPlayerPrompt c w mc command p guild trace) := by
  unfold registryContract durablyWritten banPlayerPrompt
  simp only []
  repeat' split
  all_goals simp only [fail]
  all_goals simp only [promptSteps, List.filterMap_append, h]
  all_goals simp only [*, List.filterMap_cons, List.filterMap_nil, Effect.promptStep]
  all_goals simp

theorem restartServerPrompt_posts (c : Commands) (w : World) (mc : MessageCreate)
    (command : Command) (p : RestartServerCommand) (guild : Guild) (trace : List Effect)
    (h : List.filterMap Effect.promptStep trace = []) :
    ((restartServerPrompt c w mc command p guild trace).trace.any Effect.isOutput = true ↔
        selectServers p.Params.ServerID guild.Servers [] ≠ []
          ∧ c.Config.Reactions "restart" ≠ none)
    ∧ (selectServers p.Params.ServerID guild.Servers [] = [] →
        (restartServerPrompt c w mc command p guild trace).trace
          = trace ++ [.ErrorOutput command mc.Content mc.ChannelID
              { Message := "Unable to find servers to restart"
                Err := .New "invalid server id or no servers set up" }]
        ∧ (restartServerPrompt c w mc command p guild trace).Messages = c.Messages)
    ∧ (selectServers p.Params.ServerID guild.Servers [] ≠ [] →
        c.Config.Reactions "restart" = none →
        (restartServerPrompt c w mc command p guild trace).trace
          = trace ++ [.ErrorOutput command mc.Content mc.ChannelID
              { Message := "Unable to find reactions for command"
                Err := .New "missing restart reaction" }]
        ∧ (restartServerPrompt c w mc command p guild trace).Messages = c.Messages) := by
  have hany := any_isOutput_of_no_prompt_steps trace h
  unfold restartServerPrompt
  simp only []
  repeat' split
  all_goals simp only [fail]
  all_goals simp_all [Effect.isOutput]

theorem restartServerPrompt_order (c : Commands) (w : World) (mc : MessageCreate)
    (command : Command) (p : RestartServerCommand) (guild : Guild) (trace : List Effect)
    (h : List.filterMap Effect.promptStep trace = []) :
    promptOrderContract "restart" c.Config.CacheSettings.RestartReaction.Base c w mc command
      (restartServerPrompt c w mc command p guild trace) := by
  have hadd := no_AddReaction_of_no_prompt_steps trace h
  have hset := no_SetStruct_of_no_prompt_steps trace h
  unfold promptOrderContract restartServerPrompt
  simp only []
  repeat' split
  all_goals simp only [fail]
  all_goals simp only [promptSteps, List.filterMap_append, h]
  all_goals simp only [*, List.filterMap_cons, List.filterMap_nil, Effect.promptStep]
  all_goals simp [hadd, hset]
  all_goals (intros; subst_vars; simp)

theorem restartServerPrompt_registry (c : Commands) (w : World) (mc : MessageCreate)
    (command : Command) (p : RestartServerCommand) (guild : Guild) (trace : List Effect)
    (h : List.filterMap Effect.promptStep trace = []) :
    registryContract "restart" c.Config.CacheSettings.RestartReaction.Base
      c.Config.CacheSettings.RestartReaction.TTL "Failed to convert reaction TTL to int64"
      c w mc command (restartServerPrompt c w mc command p guild trace) := by
  unfold registryContract durablyWritten restartServerPrompt
  simp only []
  repeat' split
  all_goals simp only [fail]
  all_goals simp only [promptSteps, List.filterMap_append, h]
  all_goals simp only [*, List.filterMap_cons, List.filterMap_nil, Effect.promptStep]
  all_goals simp

theorem fail_order (reactionName base : String) (c : Commands) (w : World)
    (mc : MessageCreate) (command : Command) (exit : Exit)
    (trace : List Effect) (e : Error) (h : List.filterMap Effect.promptStep trace = []) :
    promptOrderContract reactionName base c w mc command (fail c mc command exit trace e) := by
  have hadd := no_AddReaction_of_no_prompt_steps trace h
  have hset := no_SetStruct_of_no_prompt_steps trace h
  simp [promptOrderContract, fail, promptSteps, List.filterMap_append, h, Effect.promptStep,
    hadd, hset]

theorem fail_registry (reactionName base ttl ttlMessage : String) (c : Commands) (w : World)
    (mc : MessageCreate) (command : Command) (exit : Exit) (trace : List Effect) (e : Error)
    (hexit : exit ≠ .registered)
    (h : List.filterMap Effect.promptStep trace = []) :
    registryContract reactionName base ttl ttlMessage c w mc command
      (fail c mc command exit trace e) := by
  simp [registryContract, durablyWritten, fail, promptSteps, List.filterMap_append, h,
    Effect.promptStep, hexit]

/-! ## Properties of the parsers -/

/-- C4. When the content splits into `cmd, t1, t2, ..., tn` with `n >= 2`, the
argument count `n` lies within `MinArgs..MaxArgs` and `ParseInt` accepts `t1`
with value `k`, `parseBanPlayerCommand` returns `ServerID = k` and `PlayerName`
equal to `t2, ..., tn` joined with single spaces. -/
theorem parseBanPlayerCommand_numeric_first (command : Command) (mc : MessageCreate)
    (cmd t1 t2 : String) (rest : List String) (k : Int)
    (hsplit : strings.Split mc.Content = cmd :: t1 :: t2 :: rest)
    (hmin : command.MinArgs ≤ (rest.length : Int) + 2)
    (hmax : (rest.length : Int) + 2 ≤ command.MaxArgs)
    (hk : strconv.ParseInt t1 = (k, none)) :
    parseBanPlayerCommand command mc
      = .ok { Params := { PlayerName := strings.Join (t2 :: rest) " ", ServerID := k } } := by
  have hcount : ¬ ((((cmd :: t1 :: t2 :: rest).length : Int) - 1 < command.MinArgs)
      ∨ (((cmd :: t1 :: t2 :: rest).length : Int) - 1 > command.MaxArgs)) := by
    simp only [List.length_cons]
    push_cast
    omega
  simp only [parseBanPlayerCommand, hsplit, if_neg hcount]
  simp [hk]

/-- C4, the scenario of the specification: `ban 12345 Steve Smith`. -/
theorem parseBanPlayerCommand_numeric_first_witness :
    parseBanPlayerCommand banCommand (messageOf "ban 12345 Steve Smith")
      = .ok { Params := { PlayerName := "Steve Smith", ServerID := 12345 } } :=
  parseBanPlayerCommand_numeric_first banCommand (messageOf "ban 12345 Steve Smith")
    "ban" "12345" "Steve" ["Smith"] 12345 (by decide) (by decide) (by decide) (by decide)

/-- C5. At `ban 9223372036854775808 Steve` the first argument is rejected by
`ParseInt` with a range error, which returns the largest `int64` and not `0`;
`parseBanPlayerCommand` stores that value as `ServerID`, where
`parseRestartServerCommand` on the same arguments leaves `ServerID` at `0`. -/
theorem parseBanPlayerCommand_range_error_server_id :
    strconv.ParseInt "9223372036854775808" = (9223372036854775807, some .ErrRange)
    ∧ parseBanPlayerCommand banCommand (messageOf "ban 9223372036854775808 Steve")
      = .ok { Params := { PlayerName := "9223372036854775808 Steve"
                          ServerID := 9223372036854775807 } }
    ∧ parseRestartServerCommand restartCommand (messageOf "restart 9223372036854775808 Steve")
      = .ok { Params := { ServerID := 0, Message := "9223372036854775808 Steve" } } := by
  decide

/-- C6, counterexample. `ban 123 ` (with a trailing space) passes the
argument-count check, the payload after the numeric identifier is empty, and
the parser succeeds with an empty `PlayerName`; so does `ban ` without an
identifier. -/
theorem parseBanPlayerCommand_empty_name_accepted :
    parseBanPlayerCommand banCommand (messageOf "ban 123 ")
      = .ok { Params := { PlayerName := "", ServerID := 123 } }
    ∧ parseBanPlayerCommand banCommand (messageOf "ban ")
      = .ok { Params := { PlayerName := "", ServerID := 0 } } := by
  decide

/-- C7. With `MinArgs = 0` the content `ban` passes the argument-count check
and the parser then reads `splitContent[1]` of a one-element slice. -/
theorem parseBanPlayerCommand_index_out_of_range :
    strings.Split "ban" = ["ban"]
    ∧ parseBanPlayerCommand { Name := "ban", MinArgs := 0, MaxArgs := 100 } (messageOf "ban")
      = .indexOutOfRange
    ∧ parseRestartServerCommand { Name := "ban", MinArgs := 0, MaxArgs := 100 } (messageOf "ban")
      ≠ .indexOutOfRange := by
  decide

/-- C8, counterexample. For the actor `Bob`, `restart` without arguments does
not yield the message `A restart has been requested by Bob`: the text goes on
with ` on Discord`. -/
theorem parseRestartServerCommand_message_not_bare :
    parseRestartServerCommand restartCommand (messageOf "restart")
      ≠ .ok { Params := { ServerID := 0
                          Message := "A restart has been requested by " ++ "Bob" } }
    ∧ parseRestartServerCommand restartCommand (messageOf "restart")
      = .ok { Params := { ServerID := 0
                          Message := "A restart has been requested by Bob on Discord" } } := by
  decide

/-- C6, amended. For every ban invocation that passes the argument-count
check: the parser fails with the missing-player-name error exactly when the
content consists of the command and one argument that `ParseInt` accepts (no
token follows the identifier); and every successful result has a non-empty
`PlayerName` provided the last token of the content is non-empty. -/
theorem parseBanPlayerCommand_missing_name_iff (command : Command) (mc : MessageCreate)
    (hmin : command.MinArgs ≤ ((strings.Split mc.Content).length : Int) - 1)
    (hmax : ((strings.Split mc.Content).length : Int) - 1 ≤ command.MaxArgs) :
    (parseBanPlayerCommand command mc = .error missingPlayerName
      ↔ ∃ cmd t1 k, strings.Split mc.Content = [cmd, t1] ∧ strconv.ParseInt t1 = (k, none))
    ∧ (∀ p, parseBanPlayerCommand command mc = .ok p →
        (strings.Split mc.Content).getLast? ≠ some "" → p.Params.PlayerName ≠ "") := by
  have hcount : ¬ ((((strings.Split mc.Content).length : Int) - 1 < command.MinArgs)
      ∨ (((strings.Split mc.Content).length : Int) - 1 > command.MaxArgs)) := by omega
  simp only [parseBanPlayerCommand, if_neg hcount]
  generalize strings.Split mc.Content = l
  match l with
  | [] => simp
  | [cmd] => simp
  | cmd :: t1 :: rest =>
    rcases hp : strconv.ParseInt t1 with ⟨k, e⟩
    cases e with
    | some err =>
      refine ⟨by simp [hp], ?_⟩
      intro p hok hlast hempty
      simp [hp] at hok
      rw [← hok] at hempty
      have := Join_eq_empty " " (t1 :: rest) (by simp) hempty
      exact hlast (by simpa [List.getLast?_cons_cons] using this)
    | none =>
      cases rest with
      | nil =>
        simp [hp]
        exact ⟨cmd, t1, ⟨rfl, rfl⟩, k, hp⟩
      | cons t2 rest2 =>
        refine ⟨by simp [hp], ?_⟩
        intro p hok hlast hempty
        simp [hp] at hok
        rw [← hok] at hempty
        have := Join_eq_empty " " (t2 :: rest2) (by simp) hempty
        exact hlast (by simpa [List.getLast?_cons_cons] using this)

/-- C6, amended, at `ban 123`: the single argument is an identifier and the
parser reports the missing player name. -/
theorem parseBanPlayerCommand_missing_name_iff_witness :
    parseBanPlayerCommand banCommand (messageOf "ban 123") = .error missingPlayerName :=
  (parseBanPlayerCommand_missing_name_iff banCommand (messageOf "ban 123")
    (by decide) (by decide)).1.mpr ⟨"ban", "123", 123, by decide, by decide⟩

/-- C8, amended. For every restart invocation accepted by the argument-count
check: without arguments the result is `ServerID = 0` with the message
`A restart has been requested by <actor> on Discord`; with exactly one argument
that `ParseInt` accepts with value `k` it is `ServerID = k` with that same
message; and the parser always returns a command. -/
theorem parseRestartServerCommand_default_message (command : Command) (mc : MessageCreate)
    (hmin : command.MinArgs ≤ ((strings.Split mc.Content).length : Int) - 1)
    (hmax : ((strings.Split mc.Content).length : Int) - 1 ≤ command.MaxArgs) :
    (∀ cmd, strings.Split mc.Content = [cmd] →
      parseRestartServerCommand command mc
        = .ok { Params := { ServerID := 0
                            Message := "A restart has been requested by "
                              ++ mc.Author.Username ++ " on Discord" } })
    ∧ (∀ cmd t1 k, strings.Split mc.Content = [cmd, t1] → strconv.ParseInt t1 = (k, none) →
      parseRestartServerCommand command mc
        = .ok { Params := { ServerID := k
                            Message := "A restart has been requested by "
                              ++ mc.Author.Username ++ " on Discord" } })
    ∧ (∃ p, parseRestartServerCommand command mc = .ok p) := by
  have hcount : ¬ ((((strings.Split mc.Content).length : Int) - 1 < command.MinArgs)
      ∨ (((strings.Split mc.Content).length : Int) - 1 > command.MaxArgs)) := by omega
  have hne := Split_ne_nil mc.Content
  simp only [parseRestartServerCommand, if_neg hcount, defaultRestartMessage]
  generalize strings.Split mc.Content = l at hne
  match l with
  | [] => exact absurd rfl hne
  | [cmd] => simp
  | cmd :: t1 :: rest =>
    rcases hp : strconv.ParseInt t1 with ⟨k, e⟩
    cases e with
    | some err =>
      simp [hp]
      intro c1 u1 k1 _ h2 _ hk1
      rw [← h2, hp] at hk1
      simp at hk1
    | none =>
      cases rest with
      | nil =>
        simp [hp]
        intro c1 u1 k1 _ h2 hk1
        rw [← h2, hp] at hk1
        simpa using hk1
      | cons t2 rest2 => simp [hp]

/-- C8, amended, at `restart 42` written by `Bob`. -/
theorem parseRestartServerCommand_default_message_witness :
    parseRestartServerCommand restartCommand (messageOf "restart 42")
      = .ok { Params := { ServerID := 42
                          Message := "A restart has been requested by Bob on Discord" } } :=
  (parseRestartServerCommand_default_message restartCommand (messageOf "restart 42")
    (by decide) (by decide)).2.1 "restart" "42" 42 (by decide) (by decide)

/-! ## Properties of the handlers -/

/-- C1. In `BanPlayer` and in `RestartServer`, for every run that reaches the
authorization gate (the command parsed, the guild feed was fetched and is
valid), with "gate open" meaning that `IsApproved` returned `true`, or `IsAdmin`
returned `true` with no error: the handler calls `Output` to post the prompt if
and only if the gate is open, a target server was selected and the reaction is
configured; with the gate open and no target server its last call reports the
no-target-servers error; when `IsApproved` is `false` and `IsAdmin` returns an
error, the calls of the run are exactly `GetGuildFeed`, `IsApproved`, `IsAdmin`
and the `ErrorOutput` of that error, and `MessagesAwaitingReaction` is
unchanged; when `IsApproved` is `false` and `IsAdmin` returns `false` without
error, they are those three calls and the `ErrorOutput` of the unauthorized
error, again with `MessagesAwaitingReaction` unchanged; and `IsAdmin` is called
exactly when `IsApproved` returned `false`. -/
theorem authorization_gate (c : Commands) (w : World) (mc : MessageCreate) (command : Command)
    (guild : Guild) (hfeed : w.GetGuildFeed = .feed guild)
    (hvalid : w.ValidateGuildFeed = none) :
    (∀ p, parseBanPlayerCommand command mc = .ok p →
      gateContract "ban" "Unable to find servers to ban on" c w mc command guild
        p.Params.ServerID (BanPlayer c w mc command))
    ∧ (∀ p, parseRestartServerCommand command mc = .ok p →
      gateContract "restart" "Unable to find servers to restart" c w mc command guild
        p.Params.ServerID (RestartServer c w mc command)) := by
  constructor
  · intro p hparse
    cases happ : w.IsApproved with
    | true =>
      have hrun : BanPlayer c w mc command = banPlayerPrompt c w mc command p guild
          [.GetGuildFeed mc.GuildID (.feed guild),
            .IsApproved guild command.Name mc.Roles true] := by
        unfold BanPlayer
        simp [hparse, hfeed, hvalid, happ]
      obtain ⟨hpost, hnone, -⟩ := banPlayerPrompt_posts c w mc command p guild
        [.GetGuildFeed mc.GuildID (.feed guild), .IsApproved guild command.Name mc.Roles true]
        (by simp [Effect.promptStep])
      obtain ⟨more, hmore, hno⟩ := banPlayerPrompt_trace c w mc command p guild
        [.GetGuildFeed mc.GuildID (.feed guild), .IsApproved guild command.Name mc.Roles true]
      unfold gateContract
      rw [hrun]
      refine ⟨by simpa [happ] using hpost, ?_, by simp [happ], by simp [happ], ?_,
        by simp [happ, banPlayerPrompt_pastGate]⟩
      · intro _ hsel
        obtain ⟨ht, hm⟩ := hnone hsel
        exact ⟨by rw [ht]; simp, hm⟩
      · simp only [happ, Bool.true_eq_false, iff_false]
        rintro ⟨ev, hev, hadm⟩
        rw [hmore] at hev
        rcases List.mem_append.mp hev with h | h
        · simp at h
          rcases h with h | h <;> simp [h, Effect.isIsAdmin] at hadm
        · simp [hno ev h] at hadm
    | false =>
      rcases hadm : w.IsAdmin with ⟨b, e⟩
      cases e with
      | some iaErr =>
        unfold gateContract BanPlayer
        simp [hparse, hfeed, hvalid, happ, hadm, fail, Exit.pastGate, Effect.isOutput,
          Effect.isIsAdmin]
      | none =>
        cases b with
        | false =>
          unfold gateContract BanPlayer
          simp [hparse, hfeed, hvalid, happ, hadm, fail, Exit.pastGate, Effect.isOutput,
            Effect.isIsAdmin]
        | true =>
          have hrun : BanPlayer c w mc command = banPlayerPrompt c w mc command p guild
              [.GetGuildFeed mc.GuildID (.feed guild),
                .IsApproved guild command.Name mc.Roles false,
                .IsAdmin mc.GuildID mc.Roles true none] := by
            unfold BanPlayer
            simp [hparse, hfeed, hvalid, happ, hadm]
          obtain ⟨hpost, hnone, -⟩ := banPlayerPrompt_posts c w mc command p guild
            [.GetGuildFeed mc.GuildID (.feed guild),
              .IsApproved guild command.Name mc.Roles false,
              .IsAdmin mc.GuildID mc.Roles true none]
            (by simp [Effect.promptStep])
          obtain ⟨more, hmore, -⟩ := banPlayerPrompt_trace c w mc command p guild
            [.GetGuildFeed mc.GuildID (.feed guild),
              .IsApproved guild command.Name mc.Roles false,
              .IsAdmin mc.GuildID mc.Roles true none]
          unfold gateContract
          rw [hrun]
          refine ⟨by simpa [happ, hadm] using hpost, ?_, by simp [hadm], by simp [hadm], ?_,
            by simp [hadm, banPlayerPrompt_pastGate]⟩
          · intro _ hsel
            obtain ⟨ht, hm⟩ := hnone hsel
            exact ⟨by rw [ht]; simp, hm⟩
          · simp only [happ, iff_true]
            exact ⟨.IsAdmin mc.GuildID mc.Roles true none, by rw [hmore]; simp, rfl⟩
  · intro p hparse
    cases happ : w.IsApproved with
    | true =>
      have hrun : RestartServer c w mc command = restartServerPrompt c w mc command p guild
          [.GetGuildFeed mc.GuildID (.feed guild),
            .IsApproved guild command.Name mc.Roles true] := by
        unfold RestartServer
        simp [hparse, hfeed, hvalid, happ]
      obtain ⟨hpost, hnone, -⟩ := restartServerPrompt_posts c w mc command p guild
        [.GetGuildFeed mc.GuildID (.feed guild), .IsApproved guild command.Name mc.Roles true]
        (by simp [Effect.promptStep])
      obtain ⟨more, hmore, hno⟩ := restartServerPrompt_trace c w mc command p guild
        [.GetGuildFeed mc.GuildID (.feed guild), .IsApproved guild command.Name mc.Roles true]
      unfold gateContract
      rw [hrun]
      refine ⟨by simpa [happ] using hpost, ?_, by simp [happ], by simp [happ], ?_,
        by simp [happ, restartServerPrompt_pastGate]⟩
      · intro _ hsel
        obtain ⟨ht, hm⟩ := hnone hsel
        exact ⟨by rw [ht]; simp, hm⟩
      · simp only [happ, Bool.true_eq_false, iff_false]
        rintro ⟨ev, hev, hadm⟩
        rw [hmore] at hev
        rcases List.mem_append.mp hev with h | h
        · simp at h
          rcases h with h | h <;> simp [h, Effect.isIsAdmin] at hadm
        · simp [hno ev h] at hadm
    | false =>
      rcases hadm : w.IsAdmin with ⟨b, e⟩
      cases e with
      | some iaErr =>
        unfold gateContract RestartServer
        simp [hparse, hfeed, hvalid, happ, hadm, fail, Exit.pastGate, Effect.isOutput,
          Effect.isIsAdmin]
      | none =>
        cases b with
        | false =>
          unfold gateContract RestartServer
          simp [hparse, hfeed, hvalid, happ, hadm, fail, Exit.pastGate, Effect.isOutput,
            Effect.isIsAdmin]
        | true =>
          have hrun : RestartServer c w mc command = restartServerPrompt c w mc command p guild
              [.GetGuildFeed mc.GuildID (.feed guild),
                .IsApproved guild command.Name mc.Roles false,
                .IsAdmin mc.GuildID mc.Roles true none] := by
            unfold RestartServer
            simp [hparse, hfeed, hvalid, happ, hadm]
          obtain ⟨hpost, hnone, -⟩ := restartServerPrompt_posts c w mc command p guild
            [.GetGuildFeed mc.GuildID (.feed guild),
              .IsApproved guild command.Name mc.Roles false,
              .IsAdmin mc.GuildID mc.Roles true none]
            (by simp [Effect.promptStep])
          obtain ⟨more, hmore, -⟩ := restartServerPrompt_trace c w mc command p guild
            [.GetGuildFeed mc.GuildID (.feed guild),
              .IsApproved guild command.Name mc.Roles false,
              .IsAdmin mc.GuildID mc.Roles true none]
          unfold gateContract
          rw [hrun]
          refine ⟨by simpa [happ, hadm] using hpost, ?_, by simp [hadm], by simp [hadm], ?_,
            by simp [hadm, restartServerPrompt_pastGate]⟩
          · intro _ hsel
            obtain ⟨ht, hm⟩ := hnone hsel
            exact ⟨by rw [ht]; simp, hm⟩
          · simp only [happ, iff_true]
            exact ⟨.IsAdmin mc.GuildID mc.Roles true none, by rw [hmore]; simp, rfl⟩

/-- C1, at a run in which the guild does not approve the actor and `IsAdmin`
returns `true` together with an error: both handlers make the three lookups,
report the error of `IsAdmin` and make no further call. -/
theorem authorization_gate_witness :
    (BanPlayer exampleCommands adminErrorWorld (messageOf "ban 12345 Steve") banCommand).trace
        = [ .GetGuildFeed "guild" (.feed exampleGuild),
            .IsApproved exampleGuild "ban" ["mod"] false,
            .IsAdmin "guild" ["mod"] true (some adminLookupDown),
            .ErrorOutput banCommand "ban 12345 Steve" "chan" adminLookupDown ]
    ∧ (RestartServer exampleCommands adminErrorWorld (messageOf "restart")
        restartCommand).trace
        = [ .GetGuildFeed "guild" (.feed exampleGuild),
            .IsApproved exampleGuild "restart" ["mod"] false,
            .IsAdmin "guild" ["mod"] true (some adminLookupDown),
            .ErrorOutput restartCommand "restart" "chan" adminLookupDown ] :=
  ⟨(((authorization_gate exampleCommands adminErrorWorld (messageOf "ban 12345 Steve")
        banCommand exampleGuild rfl rfl).1
      { Params := { PlayerName := "Steve", ServerID := 12345 } } (by decide)).2.2.1
      rfl true adminLookupDown rfl).1,
   (((authorization_gate exampleCommands adminErrorWorld (messageOf "restart")
        restartCommand exampleGuild rfl rfl).2
      { Params := { ServerID := 0
                    Message := "A restart has been requested by Bob on Discord" } }
      (by decide)).2.2.1
      rfl true adminLookupDown rfl).1⟩

/-- C10. In `BanPlayer` and in `RestartServer`, for the guild server list `L`
and every `ServerID` `s`, the selection loop yields the reference list: the
enabled servers of `L` in order when `s = 0`, otherwise the first enabled
server whose `NitradoID` is `s`, or nothing. Every selected server is enabled
and, for `s != 0`, has `NitradoID = s`. On a run that passes the gate, the
handler ends with the `ErrorOutput` of the no-target-servers error without
having called `Output` if and only if the reference list for the parsed
`ServerID` is empty; in that case it makes no `Output`, `AddReaction` or
`SetStruct` call and leaves `MessagesAwaitingReaction` unchanged; and a prompt
it posts shows exactly the reference list. -/
theorem target_servers_reference (c : Commands) (w : World) (mc : MessageCreate)
    (command : Command) (guild : Guild)
    (hfeed : w.GetGuildFeed = .feed guild) (hvalid : w.ValidateGuildFeed = none)
    (hgate : w.IsApproved = true ∨ w.IsAdmin = (true, none)) :
    (∀ s, selectServers s guild.Servers [] = targetServersReference guild.Servers s
      ∧ ∀ a ∈ selectServers s guild.Servers [], a.Enabled = true ∧ (s ≠ 0 → a.NitradoID = s))
    ∧ (∀ p, parseBanPlayerCommand command mc = .ok p →
        (((BanPlayer c w mc command).trace.getLast?
              = some (.ErrorOutput command mc.Content mc.ChannelID
                  { Message := "Unable to find servers to ban on"
                    Err := .New "invalid server id or no servers set up" })
            ∧ (BanPlayer c w mc command).trace.any Effect.isOutput = false)
          ↔ targetServersReference guild.Servers p.Params.ServerID = [])
        ∧ (targetServersReference guild.Servers p.Params.ServerID = [] →
            promptSteps (BanPlayer c w mc command).trace = []
            ∧ (BanPlayer c w mc command).Messages = c.Messages)
        ∧ (∀ channelID params fields errors messages sErr,
            Effect.Output channelID params fields errors messages sErr
              ∈ (BanPlayer c w mc command).trace →
            fields = [.ban { Servers := targetServersReference guild.Servers p.Params.ServerID
                             PlayerName := p.Params.PlayerName }])
        ∧ ((BanPlayer c w mc command).exit = .noTargetServers
          ↔ targetServersReference guild.Servers p.Params.ServerID = []))
    ∧ (∀ p, parseRestartServerCommand command mc = .ok p →
        (((RestartServer c w mc command).trace.getLast?
              = some (.ErrorOutput command mc.Content mc.ChannelID
                  { Message := "Unable to find servers to restart"
                    Err := .New "invalid server id or no servers set up" })
            ∧ (RestartServer c w mc command).trace.any Effect.isOutput = false)
          ↔ targetServersReference guild.Servers p.Params.ServerID = [])
        ∧ (targetServersReference guild.Servers p.Params.ServerID = [] →
            promptSteps (RestartServer c w mc command).trace = []
            ∧ (RestartServer c w mc command).Messages = c.Messages)
        ∧ (∀ channelID params fields errors messages sErr,
            Effect.Output channelID params fields errors messages sErr
              ∈ (RestartServer c w mc command).trace →
            fields = [.restart { Servers := targetServersReference guild.Servers p.Params.ServerID
                                 Message := p.Params.Message }])
        ∧ ((RestartServer c w mc command).exit = .noTargetServers
          ↔ targetServersReference guild.Servers p.Params.ServerID = [])) := by
  have href : ∀ s, selectServers s guild.Servers [] = targetServersReference guild.Servers s := by
    intro s
    simpa using selectServers_acc s guild.Servers []
  refine ⟨fun s => ⟨href s, ?_⟩, ?_, ?_⟩
  · rw [href s]
    exact targetServersReference_sound guild.Servers s
  · intro p hparse
    obtain ⟨trace, hsteps, hrun⟩ := BanPlayer_below_gate c w mc command p guild hparse hfeed
      hvalid hgate
    obtain ⟨hpost, hnone, hmissing⟩ := banPlayerPrompt_posts c w mc command p guild trace hsteps
    have hany := any_isOutput_of_no_prompt_steps trace hsteps
    rw [hrun, ← href]
    refine ⟨⟨?_, ?_⟩, ?_, ?_, banPlayerPrompt_noTargets c w mc command p guild trace⟩
    · rintro ⟨hlast, hout⟩
      by_contra hsel
      cases hreact : c.Config.Reactions "ban" with
      | none =>
        rw [(hmissing hsel hreact).1] at hlast
        simp at hlast
      | some r =>
        have := hpost.mpr ⟨hsel, by simp [hreact]⟩
        rw [hout] at this
        exact absurd this (by simp)
    · intro hsel
      rw [(hnone hsel).1]
      simp [hany, Effect.isOutput]
    · intro hsel
      refine ⟨?_, (hnone hsel).2⟩
      rw [(hnone hsel).1]
      simp only [promptSteps] at hsteps
      simp [promptSteps, List.filterMap_append, hsteps, Effect.promptStep]
    · intro channelID params fields errors messages sErr hmem
      exact banPlayerPrompt_fields c w mc command p guild trace hsteps channelID params fields
        errors messages sErr hmem
  · intro p hparse
    obtain ⟨trace, hsteps, hrun⟩ := RestartServer_below_gate c w mc command p guild hparse hfeed
      hvalid hgate
    obtain ⟨hpost, hnone, hmissing⟩ :=
      restartServerPrompt_posts c w mc command p guild trace hsteps
    have hany := any_isOutput_of_no_prompt_steps trace hsteps
    rw [hrun, ← href]
    refine ⟨⟨?_, ?_⟩, ?_, ?_, restartServerPrompt_noTargets c w mc command p guild trace⟩
    · rintro ⟨hlast, hout⟩
      by_contra hsel
      cases hreact : c.Config.Reactions "restart" with
      | none =>
        rw [(hmissing hsel hreact).1] at hlast
        simp at hlast
      | some r =>
        have := hpost.mpr ⟨hsel, by simp [hreact]⟩
        rw [hout] at this
        exact absurd this (by simp)
    · intro hsel
      rw [(hnone hsel).1]
      simp [hany, Effect.isOutput]
    · intro hsel
      refine ⟨?_, (hnone hsel).2⟩
      rw [(hnone hsel).1]
      simp only [promptSteps] at hsteps
      simp [promptSteps, List.filterMap_append, hsteps, Effect.promptStep]
    · intro channelID params fields errors messages sErr hmem
      exact restartServerPrompt_fields c w mc command p guild trace hsteps channelID params
        fields errors messages sErr hmem

/-- C10, at the example guild: `ban 999 Steve` names a `NitradoID` no server
has, and the run consists of the two lookups and the `ErrorOutput` of the
no-target-servers error; `ServerID = 0` selects the two enabled servers in
order. -/
theorem target_servers_reference_witness :
    (BanPlayer exampleCommands exampleWorld (messageOf "ban 999 Steve") banCommand).trace
        = [ .GetGuildFeed "guild" (.feed exampleGuild),
            .IsApproved exampleGuild "ban" ["mod"] true,
            .ErrorOutput banCommand "ban 999 Steve" "chan"
              { Message := "Unable to find servers to ban on"
                Err := .New "invalid server id or no servers set up" } ]
    ∧ (BanPlayer exampleCommands exampleWorld (messageOf "ban 999 Steve") banCommand).Messages
        = exampleCommands.Messages
    ∧ selectServers 0 exampleGuild.Servers []
        = [ { ID := 1, NitradoID := 12345, Name := "alpha", Enabled := true },
            { ID := 3, NitradoID := 888, Name := "gamma", Enabled := true } ] :=
  ⟨by decide,
   (((target_servers_reference exampleCommands exampleWorld (messageOf "ban 999 Steve")
        banCommand exampleGuild rfl rfl (Or.inl rfl)).2.1
      { Params := { PlayerName := "Steve", ServerID := 999 } } (by decide)).2.1
      (by decide)).2,
   ((target_servers_reference exampleCommands exampleWorld (messageOf "ban 999 Steve")
        banCommand exampleGuild rfl rfl (Or.inl rfl)).1 0).1.trans (by decide)⟩

/-- C2, amended. In `BanPlayer` and in `RestartServer`, for every run: the
prompt is posted first, the reaction is added only to a posted prompt, and the
durable write is made only after both succeeded, each call at most once; a
call of `AddReaction` is made on the channel of the command, on the ID of the
posted message and with the emoji of the configured reaction; a call of
`SetStruct` uses the cache key of the posted message; and when the durable
write fails, the reaction has been added to the posted prompt, the last call
of the run is the `ErrorOutput` of the message and error returned by
`SetStruct`, and `MessagesAwaitingReaction` is unchanged. -/
theorem prompt_steps_in_order (c : Commands) (w : World) (mc : MessageCreate)
    (command : Command) :
    promptOrderContract "ban" c.Config.CacheSettings.BanReaction.Base c w mc command
      (BanPlayer c w mc command)
    ∧ promptOrderContract "restart" c.Config.CacheSettings.RestartReaction.Base c w mc command
      (RestartServer c w mc command) := by
  constructor
  · unfold BanPlayer
    simp only []
    repeat' split
    all_goals first
      | exact banPlayerPrompt_order _ _ _ _ _ _ _ (by simp [Effect.promptStep])
      | exact fail_order _ _ _ _ _ _ _ _ _ (by simp [Effect.promptStep])
      | simp [promptOrderContract, promptSteps]
  · unfold RestartServer
    simp only []
    repeat' split
    all_goals first
      | exact restartServerPrompt_order _ _ _ _ _ _ _ (by simp [Effect.promptStep])
      | exact fail_order _ _ _ _ _ _ _ _ _ (by simp [Effect.promptStep])
      | simp [promptOrderContract, promptSteps]

/-- C3, amended. In `BanPlayer` and in `RestartServer`, for every run: when
the durable write succeeded and `ParseInt` accepts the TTL string the handler
converts with value `k`, the write is the last call of the run and
`MessagesAwaitingReaction` gains, under the ID of the prompt message whose
cache key the write used, the entry with `Expires = now + k`, the ID of the
configured reaction, the command name and the author; when the durable write
succeeded and `ParseInt` rejects the TTL string, the last call of the run is
the `ErrorOutput` of the TTL conversion error and `MessagesAwaitingReaction` is
unchanged; and when no durable write succeeded `MessagesAwaitingReaction` is
unchanged. -/
theorem registry_records (c : Commands) (w : World) (mc : MessageCreate) (command : Command) :
    registryContract "ban" c.Config.CacheSettings.BanReaction.Base
      c.Config.CacheSettings.BanReaction.TTL "Failed to convert ban reaction TTL to int64"
      c w mc command (BanPlayer c w mc command)
    ∧ registryContract "restart" c.Config.CacheSettings.RestartReaction.Base
      c.Config.CacheSettings.RestartReaction.TTL "Failed to convert reaction TTL to int64"
      c w mc command (RestartServer c w mc command) := by
  constructor
  · unfold BanPlayer
    simp only []
    repeat' split
    all_goals first
      | exact banPlayerPrompt_registry _ _ _ _ _ _ _ (by simp [Effect.promptStep])
      | exact fail_registry _ _ _ _ _ _ _ _ _ _ _ (by decide) (by simp [Effect.promptStep])
      | simp [registryContract, durablyWritten, promptSteps]
  · unfold RestartServer
    simp only []
    repeat' split
    all_goals first
      | exact restartServerPrompt_registry _ _ _ _ _ _ _ (by simp [Effect.promptStep])
      | exact fail_registry _ _ _ _ _ _ _ _ _ _ _ (by decide) (by simp [Effect.promptStep])
      | simp [registryContract, durablyWritten, promptSteps]

/-- C2, counterexample. On a run in which every call succeeds, both handlers
call `Output` and `AddReaction` ahead of `SetStruct`; and when `SetStruct`
fails, both runs end with a posted prompt that carries the confirmation
reaction and has no durable record: after the prompt `m1` is posted,
`BanPlayer` adds the reaction to `m1`, gets the error of the cache from
`SetStruct` and reports it. -/
theorem prompt_posted_before_write :
    writeBeforePrompt
        (BanPlayer exampleCommands exampleWorld (messageOf "ban 12345 Steve") banCommand).trace
      = false
    ∧ writeBeforePrompt
        (RestartServer exampleCommands exampleWorld (messageOf "restart") restartCommand).trace
      = false
    ∧ livePromptWithoutRecord
        (BanPlayer exampleCommands cacheDownWorld (messageOf "ban 12345 Steve") banCommand).trace
      = true
    ∧ livePromptWithoutRecord
        (RestartServer exampleCommands cacheDownWorld (messageOf "restart") restartCommand).trace
      = true
    ∧ (BanPlayer exampleCommands cacheDownWorld (messageOf "ban 12345 Steve")
        banCommand).trace.drop 3
      = [ .AddReaction "chan" "m1" "hammer:r1" none,
          .SetStruct "ban-reaction:m1"
            (.ban { PlayerName := "Steve"
                    Reactions := [{ Name := "hammer", ID := "r1" }]
                    User := { ID := "u1", Name := "Bob" }
                    Servers := [{ ID := 1 }] })
            "300" (some storageDown),
          .ErrorOutput banCommand "ban 12345 Steve" "chan"
            { Message := "cache unavailable", Err := .Service "dial tcp: timeout" } ] := by
  decide

/-- C3, counterexample. With TTL strings `5m` and `10m`, which `ParseInt`
rejects, both handlers make a successful durable write, then leave through the
TTL-error `return` with no entry for the prompt message `m1` in
`MessagesAwaitingReaction`. -/
theorem durable_record_without_entry :
    (BanPlayer durationConfig exampleWorld (messageOf "ban 12345 Steve") banCommand).exit
        = .ttlError
    ∧ (PromptStep.write, true) ∈ promptSteps
        (BanPlayer durationConfig exampleWorld (messageOf "ban 12345 Steve") banCommand).trace
    ∧ (BanPlayer durationConfig exampleWorld (messageOf "ban 12345 Steve") banCommand).Messages
        "m1" = none
    ∧ (RestartServer durationConfig exampleWorld (messageOf "restart") restartCommand).exit
        = .ttlError
    ∧ (PromptStep.write, true) ∈ promptSteps
        (RestartServer durationConfig exampleWorld (messageOf "restart") restartCommand).trace
    ∧ (RestartServer durationConfig exampleWorld (messageOf "restart") restartCommand).Messages
        "m1" = none := by
  decide

/-- C9. With the ban TTL configured as `300` and the restart TTL as `600`, a
successful `restart` run at time `1000` hands the TTL string `300` to
`SetStruct`, and `ParseInt` reads it as `300`, yet the entry registered for the
prompt message expires at `1600`; `BanPlayer` under the same configuration
registers `1000 + 300`. -/
theorem RestartServer_expiry_from_other_ttl :
    (RestartServer exampleCommands exampleWorld (messageOf "restart") restartCommand).exit
        = .registered
    ∧ (RestartServer exampleCommands exampleWorld (messageOf "restart")
        restartCommand).trace.getLast?
        = some (.SetStruct "restart-reaction:m1"
            (.restart { Reactions := [{ Name := "cycle", ID := "r2" }]
                        User := { ID := "u1", Name := "Bob" }
                        Message := "A restart has been requested by Bob on Discord"
                        Servers := [{ ID := 1 }, { ID := 3 }] })
            "300" none)
    ∧ strconv.ParseInt "300" = (300, none)
    ∧ (RestartServer exampleCommands exampleWorld (messageOf "restart") restartCommand).Messages
        "m1" = some { Expires := 1600, Reactions := ["r2"], CommandName := "restart", User := "u1" }
    ∧ (BanPlayer exampleCommands exampleWorld (messageOf "ban Steve") banCommand).Messages
        "m1"
      = some { Expires := 1300, Reactions := ["r1"], CommandName := "ban", User := "u1" } := by
  decide

end commands
